import Mathlib

/-!
Verification development for the MoodFlix mood-based video recommender.

The definitions below are a shallow embedding of the coordination core of the
application: the emotion-to-keyword mapping layer (`src/lib/emotionMapping.ts`),
the video data model (`src/lib/types.ts`), and the main page controller
(emotion stabilizer, fetch orchestrator and scan-session countdown) from the
main `page.tsx` component. JavaScript numbers holding confidence scores are
modelled as rationals; millisecond timestamps as naturals; `setTimeout` /
`setInterval` handles are modelled as explicit optional slots in the state.
-/

namespace MoodFlix

/-- Emotion type, from `src/lib/emotionMapping.ts`:
`type Emotion = 'happy' | 'sad' | 'neutral' | 'surprised'`. -/
inductive Emotion where
  | happy
  | sad
  | neutral
  | surprised
deriving DecidableEq, Repr

/-- `EmotionConfig` interface from `src/lib/emotionMapping.ts`. -/
structure EmotionConfig where
  label : String
  emoji : String
  color : String
  keywords : List String
  description : String
deriving DecidableEq, Repr

/-- The `emotionMapping` table from `src/lib/emotionMapping.ts` (lines 16-61),
with the exact keyword lists of the source. -/
def emotionMapping : Emotion → EmotionConfig
  | .happy =>
    { label := "Happy"
      emoji := "😊"
      color := "var(--color-happy)"
      keywords :=
        ["romantic hindi songs 2024", "bengali romantic songs", "bollywood romantic songs",
         "bangla romantic songs", "hindi love songs", "arijit singh romantic songs",
         "bengali love songs", "hindi romantic hits", "bangla love songs 2024"]
      description := "You look happy! Here are romantic songs for you. 💕" }
  | .sad =>
    { label := "Sad"
      emoji := "😢"
      color := "var(--color-sad)"
      keywords :=
        ["sad hindi songs 2024", "bengali sad songs", "bollywood sad songs",
         "bangla sad songs", "hindi heartbreak songs", "arijit singh sad songs",
         "bengali emotional songs", "hindi sad music", "bangla heartbreak songs"]
      description := "Feeling sad? Here are emotional songs for you. 💔" }
  | .neutral =>
    { label := "Neutral"
      emoji := "😐"
      color := "var(--color-neutral)"
      keywords :=
        ["hindi romantic songs mix", "bengali mix songs", "bollywood hits 2024",
         "bangla popular songs", "hindi top songs", "bollywood party songs",
         "bengali trending songs", "hindi mix playlist", "bangla best songs"]
      description := "In a calm mood. Here are romantic & mix songs for you. 🎵" }
  | .surprised =>
    { label := "Surprised"
      emoji := "😮"
      color := "var(--color-surprised)"
      keywords :=
        ["hindi romantic songs mix", "bengali mix songs", "bollywood hits 2024",
         "bangla popular songs", "hindi top songs", "bollywood party songs",
         "bengali trending songs", "hindi mix playlist", "bangla best songs"]
      description := "Here are some mix songs for you! 🎵" }

/-- `getRandomKeyword` from `src/lib/emotionMapping.ts` (lines 66-69).
`Math.floor(Math.random() * keywords.length)` yields an index in
`[0, keywords.length)`; the randomness is modelled by the explicit index `k`,
reduced modulo the list length. -/
def getRandomKeyword (emotion : Emotion) (k : Nat) : String :=
  let keywords := (emotionMapping emotion).keywords
  keywords.getD (k % keywords.length) ""

/-- The per-expression score record passed to `mapExpressionToEmotion`
(`src/lib/emotionMapping.ts`, lines 75-83). Scores are rationals standing for
the classifier confidences. -/
structure ExpressionScores where
  happy : ℚ
  sad : ℚ
  neutral : ℚ
  surprised : ℚ
  angry : ℚ
  fearful : ℚ
  disgusted : ℚ
deriving DecidableEq, Repr

/-- `mapExpressionToEmotion` from `src/lib/emotionMapping.ts` (lines 75-108):
builds the `relevantExpressions` record (surprised folded into neutral),
iterates `Object.entries` in insertion order (happy, sad, neutral) keeping the
strict maximum over an initial `('neutral', 0)`, and defaults to neutral when
the maximum is below `0.3`. -/
def mapExpressionToEmotion (expressions : ExpressionScores) : Emotion :=
  let relevantExpressions : List (Emotion × ℚ) :=
    [(.happy, expressions.happy),
     (.sad, expressions.sad),
     (.neutral, expressions.neutral + expressions.surprised)]
  let best :=
    relevantExpressions.foldl
      (fun acc entry => if acc.2 < entry.2 then entry else acc)
      (Emotion.neutral, 0)
  if best.2 < 3/10 then .neutral else best.1

/-- The combined score assigned by `mapExpressionToEmotion`'s
`relevantExpressions` record to each of the three detectable emotions
(surprised shares the neutral bucket). -/
def relevantScore (expressions : ExpressionScores) : Emotion → ℚ
  | .happy => expressions.happy
  | .sad => expressions.sad
  | _ => expressions.neutral + expressions.surprised

/-- `YouTubeVideo` interface from `src/lib/types.ts`. -/
structure YouTubeVideo where
  id : String
  title : String
  thumbnail : String
  channelTitle : Option String
deriving DecidableEq, Repr

/-- The id projection of a video list (the `prevVideos.map(v => v.id)` step of
the accumulator update). -/
def videoIds (l : List YouTubeVideo) : List String :=
  l.map (fun v => v.id)

/-- The accumulator update of `fetchVideos` (`page.tsx`, lines 62-66):
`setVideos(prev => { const existingIds = new Set(prev.map(v => v.id));
return [...prev, ...data.videos.filter(v => !existingIds.has(v.id))]; })`. -/
def mergeVideos (prevVideos newResponse : List YouTubeVideo) : List YouTubeVideo :=
  let existingIds := videoIds prevVideos
  prevVideos ++ newResponse.filter (fun v => !decide (v.id ∈ existingIds))

/-- One emotion sample delivered to the detection handler: the `(emotion,
confidence)` pair passed to `handleEmotionDetected` plus the `Date.now()`
millisecond timestamp observed during that call. -/
structure EmotionSample where
  emotion : Emotion
  confidence : ℚ
  capturedAt : Nat
deriving DecidableEq, Repr

/-- The outcome of one `fetch('/api/youtube?...')` round trip as seen by
`fetchVideos` (`page.tsx`, lines 53-74): the network call may reject, the
body may fail to parse, the status may be non-2xx (carrying an optional
`error` field), or the call succeeds with a video list. -/
inductive FetchOutcome where
  | networkError (message : String)
  | parseError (message : String)
  | httpError (errorField : Option String)
  | success (vids : List YouTubeVideo)
deriving DecidableEq, Repr

/-- The state of the main page component (`page.tsx`): every `useState` cell
and every `useRef` cell that the coordination core reads or writes.  Timer
handles are modelled as explicit slots: `pendingEmotionTimer` holds the target
emotion and the schedule timestamp of the live `setTimeout` (if any), and
`countdownActive` records whether the countdown `setInterval` is live.
`dispatchedFetches` and `emotionFireTimes` are ghost logs instrumenting the
model: every keyword for which `fetchVideos` is invoked, and the times at
which the emotion-debounce timer fired, in order.  They are written exactly
where the source invokes `fetchVideos` and never read by the operations. -/
structure AppState where
  showConsent : Bool
  cameraActive : Bool
  cameraError : Option String
  isScanning : Bool
  scanCountdown : Nat
  currentEmotion : Option Emotion
  searchKeyword : Option String
  lastSearchedEmotion : Option Emotion
  videos : List YouTubeVideo
  isLoadingVideos : Bool
  videoError : Option String
  hasLoadedVideos : Bool
  searchQuery : String
  pendingEmotionTimer : Option (Emotion × Nat)
  countdownActive : Bool
  stableEmotion : Option Emotion
  stableCount : Nat
  lastFetchTime : Nat
  dispatchedFetches : List String
  emotionFireTimes : List Nat
deriving DecidableEq, Repr

/-- The initial component state: the initial value of each `useState` cell and
each `useRef` cell of `page.tsx` (lines 18-43 and 78). -/
def initState : AppState where
  showConsent := true
  cameraActive := false
  cameraError := none
  isScanning := false
  scanCountdown := 0
  currentEmotion := none
  searchKeyword := none
  lastSearchedEmotion := none
  videos := []
  isLoadingVideos := false
  videoError := none
  hasLoadedVideos := false
  searchQuery := ""
  pendingEmotionTimer := none
  countdownActive := false
  stableEmotion := none
  stableCount := 0
  lastFetchTime := 0
  dispatchedFetches := []
  emotionFireTimes := []

/-- The synchronous prefix of `fetchVideos(keyword)` (`page.tsx`, lines
49-51): mark loading, clear the previous error, and dispatch the request for
`keyword` (recorded in the ghost log). -/
def fetchStart (s : AppState) (keyword : String) : AppState :=
  { s with isLoadingVideos := true, videoError := none,
           dispatchedFetches := s.dispatchedFetches ++ [keyword] }

/-- Completion of an in-flight `fetchVideos` call (`page.tsx`, lines 53-74).
A rejected fetch or a body that fails `response.json()` lands in the catch
block with the thrown message; a non-2xx status throws
`data.error || 'Failed to fetch videos'`; success merges the response into
the accumulator and marks `hasLoadedVideos`.  The `finally` clause clears the
loading flag in every case. -/
def fetchComplete (s : AppState) (outcome : FetchOutcome) : AppState :=
  match outcome with
  | .networkError message =>
      { s with videoError := some message, isLoadingVideos := false }
  | .parseError message =>
      { s with videoError := some message, isLoadingVideos := false }
  | .httpError errorField =>
      { s with videoError := some (errorField.getD "Failed to fetch videos"),
               isLoadingVideos := false }
  | .success vids =>
      { s with videos := mergeVideos s.videos vids,
               hasLoadedVideos := true,
               isLoadingVideos := false }

/-- `handleEmotionDetected` (`page.tsx`, lines 84-118).  Low-confidence
samples return before touching any ref; a sample matching `stableEmotionRef`
increments `stableCountRef`, otherwise both refs are rewritten; fewer than 2
stable detections return; the stabilized emotion is published for display;
the 3-second cooldown against `lastFetchTimeRef` gates scheduling; and
scheduling clears any pending timeout and installs a fresh 300 ms one for
this emotion (modelled as overwriting the `pendingEmotionTimer` slot with the
emotion and the current timestamp). -/
def handleEmotionDetected (s : AppState) (emotion : Emotion) (confidence : ℚ)
    (now : Nat) : AppState :=
  if confidence < 9/10 then s
  else
    let s1 :=
      if s.stableEmotion = some emotion then
        { s with stableCount := s.stableCount + 1 }
      else
        { s with stableEmotion := some emotion, stableCount := 1 }
    if s1.stableCount < 2 then s1
    else
      let s2 := { s1 with currentEmotion := some emotion }
      if now - s2.lastFetchTime < 3000 then s2
      else { s2 with pendingEmotionTimer := some (emotion, now) }

/-- Expiry of the 300 ms debounce timeout installed by
`handleEmotionDetected` (`page.tsx`, lines 111-117): pick a keyword for the
scheduled emotion (`k` models the random index), publish it, start the fetch,
remember the searched emotion, and stamp `lastFetchTimeRef` with the firing
time (schedule time + 300 ms).  A cleared or absent timer never fires. -/
def fireEmotionTimer (s : AppState) (k : Nat) : AppState :=
  match s.pendingEmotionTimer with
  | none => s
  | some (emotion, scheduledAt) =>
      let keyword := getRandomKeyword emotion k
      let s1 := fetchStart { s with pendingEmotionTimer := none,
                                    searchKeyword := some keyword } keyword
      { s1 with lastSearchedEmotion := some emotion,
                lastFetchTime := scheduledAt + 300,
                emotionFireTimes := s.emotionFireTimes ++ [scheduledAt + 300] }

/-- `startCountdown` (`page.tsx`, lines 136-157): set the countdown to
`SCAN_DURATION = 5`, clear any previous interval and install a fresh
one-second ticker. -/
def startCountdown (s : AppState) : AppState :=
  { s with scanCountdown := 5, countdownActive := true }

/-- One tick of the countdown interval (`page.tsx`, lines 143-156).  A
cleared interval no longer ticks; at `prev <= 1` the interval clears itself,
the camera and the scanning flag are switched off and the countdown shows 0;
otherwise the countdown decrements. -/
def tick (s : AppState) : AppState :=
  if s.countdownActive then
    if s.scanCountdown ≤ 1 then
      { s with countdownActive := false, cameraActive := false,
               isScanning := false, scanCountdown := 0 }
    else
      { s with scanCountdown := s.scanCountdown - 1 }
  else s

/-- `handleAcceptConsent` (`page.tsx`, lines 123-128): hide the dialog,
activate the camera, start scanning and start the countdown. -/
def handleAcceptConsent (s : AppState) : AppState :=
  startCountdown
    { s with showConsent := false, cameraActive := true, isScanning := true }

/-- `handleDeclineConsent` (`page.tsx`, lines 162-165). -/
def handleDeclineConsent (s : AppState) : AppState :=
  { s with showConsent := false,
           cameraError :=
             some "Camera access was declined. You can refresh the page to try again." }

/-- `handleCameraStop` (`page.tsx`, lines 170-179): deactivate camera and
scanning and clear both the debounce timeout and the countdown interval. -/
def handleCameraStop (s : AppState) : AppState :=
  { s with cameraActive := false, isScanning := false,
           pendingEmotionTimer := none, countdownActive := false }

/-- `handleCameraError` (`page.tsx`, lines 184-188). -/
def handleCameraError (s : AppState) (error : String) : AppState :=
  { s with cameraError := some error, cameraActive := false, isScanning := false }

/-- `handleScanAgain` (`page.tsx`, lines 193-206): clear results and errors,
reset the stabilizer refs and the fetch cooldown, reactivate the camera and
restart the countdown. -/
def handleScanAgain (s : AppState) : AppState :=
  startCountdown
    { s with cameraError := none, cameraActive := true, isScanning := true,
             currentEmotion := none, searchKeyword := none,
             videos := [], hasLoadedVideos := false,
             lastSearchedEmotion := none,
             stableEmotion := none, stableCount := 0, lastFetchTime := 0 }

/-- Executable model of JavaScript `String.prototype.trim`: strip leading
and trailing whitespace characters. -/
def jsTrim (s : String) : String :=
  let cs := s.toList.dropWhile (fun ch => ch.isWhitespace)
  String.mk ((cs.reverse.dropWhile (fun ch => ch.isWhitespace)).reverse)

/-- `handleSearch` (`page.tsx`, lines 211-226): with a non-empty trimmed
query, publish it as the search keyword, clear the displayed emotion, fire
`fetchVideos` immediately for exactly the trimmed query, and — only when the
camera is running — deactivate camera and scanning and clear the countdown
interval.  The pending debounce timeout is not touched. -/
def handleSearch (s : AppState) : AppState :=
  if jsTrim s.searchQuery = "" then s
  else
    let q := jsTrim s.searchQuery
    let s1 := fetchStart { s with searchKeyword := some q, currentEmotion := none } q
    if s1.cameraActive then
      { s1 with cameraActive := false, isScanning := false, countdownActive := false }
    else s1

/-- Typing in the search box: `setSearchQuery` (`page.tsx`, line 389). -/
def setSearchQuery (s : AppState) (q : String) : AppState :=
  { s with searchQuery := q }

/-- The unmount cleanup effect (`page.tsx`, lines 231-240): clear the
debounce timeout and the countdown interval. -/
def teardownCleanup (s : AppState) : AppState :=
  { s with pendingEmotionTimer := none, countdownActive := false }

/-- Events interleaving sample deliveries with debounce-timer expiries within
one scan session. -/
inductive SessionEvent where
  | sample (emotion : Emotion) (confidence : ℚ) (now : Nat)
  | timerFire (k : Nat)
deriving DecidableEq, Repr

/-- Interpretation of one session event. -/
def stepEvent (s : AppState) (ev : SessionEvent) : AppState :=
  match ev with
  | .sample emotion confidence now => handleEmotionDetected s emotion confidence now
  | .timerFire k => fireEmotionTimer s k

/-- Run a list of session events from a state. -/
def runEvents (s : AppState) (evs : List SessionEvent) : AppState :=
  evs.foldl stepEvent s

/-- Run a list of emotion samples through the detection handler. -/
def runSamples (s : AppState) (l : List EmotionSample) : AppState :=
  l.foldl (fun s smp => handleEmotionDetected s smp.emotion smp.confidence smp.capturedAt) s

/-- The emotions of the accepted (confidence at least 0.90) samples of a
sample sequence, in order. -/
def acceptedEmotions (l : List EmotionSample) : List Emotion :=
  (l.filter (fun smp => !decide (smp.confidence < 9/10))).map (fun smp => smp.emotion)

/-- The states the component can reach from its initial state under the
operations of the coordination core. -/
inductive Reachable : AppState → Prop where
  | init : Reachable initState
  | acceptConsent {s} : Reachable s → Reachable (handleAcceptConsent s)
  | declineConsent {s} : Reachable s → Reachable (handleDeclineConsent s)
  | emotionDetected {s} (e : Emotion) (c : ℚ) (t : Nat) :
      Reachable s → Reachable (handleEmotionDetected s e c t)
  | timerFire {s} (k : Nat) : Reachable s → Reachable (fireEmotionTimer s k)
  | fetchDone {s} (o : FetchOutcome) : Reachable s → Reachable (fetchComplete s o)
  | cameraStop {s} : Reachable s → Reachable (handleCameraStop s)
  | cameraError {s} (m : String) : Reachable s → Reachable (handleCameraError s m)
  | scanAgain {s} : Reachable s → Reachable (handleScanAgain s)
  | search {s} : Reachable s → Reachable (handleSearch s)
  | typeQuery {s} (q : String) : Reachable s → Reachable (setSearchQuery s q)
  | countdownTick {s} : Reachable s → Reachable (tick s)
  | unmount {s} : Reachable s → Reachable (teardownCleanup s)

/-! ## Lemmas about the accumulator merge -/

theorem mergeVideos_eq_append (a r : List YouTubeVideo) :
    mergeVideos a r = a ++ r.filter (fun v => !decide (v.id ∈ videoIds a)) := rfl

theorem mem_videoIds_mergeVideos {a r : List YouTubeVideo} {x : String} :
    x ∈ videoIds (mergeVideos a r) ↔ x ∈ videoIds a ∨ x ∈ videoIds r := by
  rw [mergeVideos_eq_append]
  unfold videoIds
  simp only [List.map_append, List.mem_append, List.mem_map, List.mem_filter,
    Bool.not_eq_true', decide_eq_false_iff_not]
  constructor
  · rintro (h | ⟨v, ⟨hvr, _⟩, rfl⟩)
    · exact Or.inl h
    · exact Or.inr ⟨v, hvr, rfl⟩
  · rintro (h | ⟨v, hvr, rfl⟩)
    · exact Or.inl h
    · by_cases hx : v.id ∈ videoIds a
      · exact Or.inl (by simpa [videoIds] using hx)
      · exact Or.inr ⟨v, ⟨hvr, by simpa [videoIds] using hx⟩, rfl⟩

theorem videoIds_def (l : List YouTubeVideo) :
    videoIds l = l.map (fun v => v.id) := rfl

theorem mem_videoIds_of_mem {l : List YouTubeVideo} {v : YouTubeVideo}
    (hv : v ∈ l) : v.id ∈ videoIds l :=
  List.mem_map_of_mem (fun v => v.id) hv

theorem nodup_videoIds_mergeVideos {a r : List YouTubeVideo}
    (ha : (videoIds a).Nodup) (hr : (videoIds r).Nodup) :
    (videoIds (mergeVideos a r)).Nodup := by
  have hmap : videoIds (mergeVideos a r)
      = videoIds a ++ videoIds (r.filter (fun v => !decide (v.id ∈ videoIds a))) := by
    rw [mergeVideos_eq_append]; exact List.map_append _ a _
  rw [hmap, videoIds_def (List.filter _ r)]
  refine List.Nodup.append ha ?_ ?_
  · exact List.Sublist.nodup
      (List.Sublist.map (fun v => v.id) (List.filter_sublist r))
      (videoIds_def r ▸ hr)
  · intro x hxa hxf
    obtain ⟨v, hvf, rfl⟩ := List.mem_map.mp hxf
    have := (List.mem_filter.mp hvf).2
    simp only [Bool.not_eq_true', decide_eq_false_iff_not] at this
    exact this hxa

theorem mergeVideos_self_absorb (a r : List YouTubeVideo) :
    mergeVideos (mergeVideos a r) r = mergeVideos a r := by
  rw [mergeVideos_eq_append (mergeVideos a r) r]
  have : r.filter (fun v => !decide (v.id ∈ videoIds (mergeVideos a r))) = [] := by
    rw [List.filter_eq_nil_iff]
    intro v hv
    have hmem : v.id ∈ videoIds (mergeVideos a r) :=
      mem_videoIds_mergeVideos.mpr (Or.inr (mem_videoIds_of_mem hv))
    simp [hmem]
  rw [this, List.append_nil]

theorem mergeVideos_take (a r : List YouTubeVideo) :
    (mergeVideos a r).take a.length = a := by
  rw [mergeVideos_eq_append]; exact List.take_left a _

theorem mergeVideos_drop_sublist (a r : List YouTubeVideo) :
    List.Sublist ((mergeVideos a r).drop a.length) r := by
  rw [mergeVideos_eq_append, List.drop_left]; exact List.filter_sublist r

theorem nodup_videoIds_foldl_mergeVideos :
    ∀ (resps : List (List YouTubeVideo)) (acc : List YouTubeVideo),
      (videoIds acc).Nodup → (∀ r ∈ resps, (videoIds r).Nodup) →
      (videoIds (resps.foldl mergeVideos acc)).Nodup := by
  intro resps
  induction resps with
  | nil => intro acc ha _; exact ha
  | cons r rs ih =>
      intro acc ha hr
      rw [List.foldl_cons]
      exact ih (mergeVideos acc r)
        (nodup_videoIds_mergeVideos ha (hr r (List.mem_cons_self r rs)))
        (fun r' hr' => hr r' (List.mem_cons_of_mem r hr'))

/-! ## Claims about the result accumulator (C1, C5, C9) -/

/-- Claim C1: for every sequence of fetch completions merged into the videos
accumulator, the accumulator never contains two items with equal id (given
that each individual response keys its items by id), after two overlapping
fetches the accumulator contains an id exactly when it was already present
or occurs in either response (the union of the ids), existing items are
never replaced (the previous accumulator survives unchanged as the prefix),
and new items are appended in arrival order (the appended suffix is an
order-preserving sublist of the response). -/
theorem claim1_accumulator_dedup :
    (∀ (acc : List YouTubeVideo) (resps : List (List YouTubeVideo)),
        (videoIds acc).Nodup → (∀ r ∈ resps, (videoIds r).Nodup) →
        (videoIds (resps.foldl mergeVideos acc)).Nodup)
    ∧ (∀ (acc r₁ r₂ : List YouTubeVideo) (x : String),
        x ∈ videoIds (mergeVideos (mergeVideos acc r₁) r₂) ↔
          x ∈ videoIds acc ∨ x ∈ videoIds r₁ ∨ x ∈ videoIds r₂)
    ∧ (∀ (acc r : List YouTubeVideo),
        (mergeVideos acc r).take acc.length = acc
        ∧ List.Sublist ((mergeVideos acc r).drop acc.length) r) :=
  ⟨fun acc resps ha hr => nodup_videoIds_foldl_mergeVideos resps acc ha hr,
   fun _ _ _ _ => by
     rw [mem_videoIds_mergeVideos, mem_videoIds_mergeVideos, or_assoc],
   fun acc r => ⟨mergeVideos_take acc r, mergeVideos_drop_sublist acc r⟩⟩

/-- Witness for C1 at concrete inputs: two overlapping responses sharing the
id "a" merged into the empty accumulator. -/
theorem claim1_witness :
    (videoIds ([[⟨"a", "t1", "u1", none⟩, ⟨"b", "t2", "u2", none⟩],
                [⟨"a", "t3", "u3", some "c"⟩, ⟨"c", "t4", "u4", none⟩]].foldl
        mergeVideos [])).Nodup
    ∧ ("c" ∈ videoIds (mergeVideos
          (mergeVideos [] [⟨"a", "t1", "u1", none⟩, ⟨"b", "t2", "u2", none⟩])
          [⟨"a", "t3", "u3", some "c"⟩, ⟨"c", "t4", "u4", none⟩]) ↔
        "c" ∈ videoIds ([] : List YouTubeVideo)
        ∨ "c" ∈ videoIds [⟨"a", "t1", "u1", none⟩, ⟨"b", "t2", "u2", none⟩]
        ∨ "c" ∈ videoIds [⟨"a", "t3", "u3", some "c"⟩, ⟨"c", "t4", "u4", none⟩]) :=
  ⟨claim1_accumulator_dedup.1 [] _ (by decide) (by decide),
   claim1_accumulator_dedup.2.1 [] _ _ "c"⟩

/-- Claim C5: every fetch that ends in an error — network failure, malformed
payload, or non-2xx status — leaves the videos accumulator exactly as it was
before the call started, and sets a user-visible error message. -/
theorem claim5_fetch_error_leaves_accumulator :
    ∀ (s : AppState) (keyword message : String) (errorField : Option String),
      ((fetchComplete (fetchStart s keyword) (.networkError message)).videos = s.videos
        ∧ (fetchComplete (fetchStart s keyword) (.networkError message)).videoError
            = some message)
      ∧ ((fetchComplete (fetchStart s keyword) (.parseError message)).videos = s.videos
        ∧ (fetchComplete (fetchStart s keyword) (.parseError message)).videoError
            = some message)
      ∧ ((fetchComplete (fetchStart s keyword) (.httpError errorField)).videos = s.videos
        ∧ (fetchComplete (fetchStart s keyword) (.httpError errorField)).videoError
            = some (errorField.getD "Failed to fetch videos")) :=
  fun _ _ _ _ => ⟨⟨rfl, rfl⟩, ⟨rfl, rfl⟩, ⟨rfl, rfl⟩⟩

/-- Claim C9: merging the same response into the accumulator twice yields the
same accumulator as merging it once, and — at the level of the id-based
deduplicated content — the accumulated state after two overlapping fetches
does not depend on their completion order: an id is present after merging
`r₁` then `r₂` exactly when it is present after merging `r₂` then `r₁`. -/
theorem claim9_merge_idempotent_commutative :
    (∀ (acc r : List YouTubeVideo),
        mergeVideos (mergeVideos acc r) r = mergeVideos acc r)
    ∧ (∀ (acc r₁ r₂ : List YouTubeVideo) (x : String),
        x ∈ videoIds (mergeVideos (mergeVideos acc r₁) r₂) ↔
          x ∈ videoIds (mergeVideos (mergeVideos acc r₂) r₁)) :=
  ⟨mergeVideos_self_absorb,
   fun _ _ _ _ => by
     rw [mem_videoIds_mergeVideos, mem_videoIds_mergeVideos,
       mem_videoIds_mergeVideos, mem_videoIds_mergeVideos]
     tauto⟩

/-! ## Branch lemmas for the emotion detection handler -/

theorem handleEmotionDetected_low_confidence {s : AppState} {e : Emotion} {c : ℚ}
    {t : Nat} (hc : c < 9/10) : handleEmotionDetected s e c t = s := by
  rw [handleEmotionDetected, if_pos hc]

theorem handleEmotionDetected_new_emotion {s : AppState} {e : Emotion} {c : ℚ}
    {t : Nat} (hc : ¬ c < 9/10) (hdiff : ¬ s.stableEmotion = some e) :
    handleEmotionDetected s e c t
      = { s with stableEmotion := some e, stableCount := 1 } := by
  simp only [handleEmotionDetected, if_neg hc, if_neg hdiff]
  split_ifs with h1
  · rfl
  · exfalso; omega
  · exfalso; omega

theorem handleEmotionDetected_second_not_yet {s : AppState} {e : Emotion} {c : ℚ}
    {t : Nat} (hc : ¬ c < 9/10) (hsame : s.stableEmotion = some e)
    (hcount : s.stableCount = 0) :
    handleEmotionDetected s e c t = { s with stableCount := 1 } := by
  simp only [handleEmotionDetected, if_neg hc, if_pos hsame, hcount]
  split_ifs with h1
  · norm_num
  · exfalso; omega
  · exfalso; omega

theorem handleEmotionDetected_stable_cooldown {s : AppState} {e : Emotion} {c : ℚ}
    {t : Nat} (hc : ¬ c < 9/10) (hsame : s.stableEmotion = some e)
    (hcount : 1 ≤ s.stableCount) (hcool : t < s.lastFetchTime + 3000) :
    handleEmotionDetected s e c t
      = { s with stableCount := s.stableCount + 1, currentEmotion := some e } := by
  simp only [handleEmotionDetected, if_neg hc, if_pos hsame]
  split_ifs with h1 h2
  · exfalso; simp at h1; omega
  · rfl
  · exfalso; simp at h2; omega

theorem handleEmotionDetected_stable_schedule {s : AppState} {e : Emotion} {c : ℚ}
    {t : Nat} (hc : ¬ c < 9/10) (hsame : s.stableEmotion = some e)
    (hcount : 1 ≤ s.stableCount) (hcool : s.lastFetchTime + 3000 ≤ t) :
    handleEmotionDetected s e c t
      = { s with stableCount := s.stableCount + 1, currentEmotion := some e,
                 pendingEmotionTimer := some (e, t) } := by
  simp only [handleEmotionDetected, if_neg hc, if_pos hsame]
  split_ifs with h1 h2
  · exfalso; simp at h1; omega
  · exfalso; simp at h2; omega
  · rfl

/-! ## Frame lemmas: which fields each operation leaves untouched -/

theorem handleEmotionDetected_frame (s : AppState) (e : Emotion) (c : ℚ) (t : Nat) :
    (handleEmotionDetected s e c t).isScanning = s.isScanning
    ∧ (handleEmotionDetected s e c t).scanCountdown = s.scanCountdown
    ∧ (handleEmotionDetected s e c t).cameraActive = s.cameraActive
    ∧ (handleEmotionDetected s e c t).countdownActive = s.countdownActive
    ∧ (handleEmotionDetected s e c t).videos = s.videos
    ∧ (handleEmotionDetected s e c t).isLoadingVideos = s.isLoadingVideos := by
  simp only [handleEmotionDetected]
  split_ifs <;> exact ⟨rfl, rfl, rfl, rfl, rfl, rfl⟩

theorem fireEmotionTimer_frame (s : AppState) (k : Nat) :
    (fireEmotionTimer s k).isScanning = s.isScanning
    ∧ (fireEmotionTimer s k).scanCountdown = s.scanCountdown
    ∧ (fireEmotionTimer s k).cameraActive = s.cameraActive
    ∧ (fireEmotionTimer s k).countdownActive = s.countdownActive
    ∧ (fireEmotionTimer s k).videos = s.videos := by
  rw [fireEmotionTimer]
  cases hp : s.pendingEmotionTimer with
  | none => exact ⟨rfl, rfl, rfl, rfl, rfl⟩
  | some pe => cases pe with
    | mk e ts => exact ⟨rfl, rfl, rfl, rfl, rfl⟩

theorem fetchComplete_frame (s : AppState) (o : FetchOutcome) :
    (fetchComplete s o).isScanning = s.isScanning
    ∧ (fetchComplete s o).scanCountdown = s.scanCountdown
    ∧ (fetchComplete s o).cameraActive = s.cameraActive
    ∧ (fetchComplete s o).countdownActive = s.countdownActive := by
  cases o <;> exact ⟨rfl, rfl, rfl, rfl⟩

/-! ## Lemmas about sample runs (C2) -/

theorem acceptedEmotions_cons_low {x : EmotionSample} {xs : List EmotionSample}
    (hc : x.confidence < 9/10) :
    acceptedEmotions (x :: xs) = acceptedEmotions xs := by
  unfold acceptedEmotions
  rw [List.filter_cons]
  simp [hc]

theorem acceptedEmotions_cons_high {x : EmotionSample} {xs : List EmotionSample}
    (hc : ¬ x.confidence < 9/10) :
    acceptedEmotions (x :: xs) = x.emotion :: acceptedEmotions xs := by
  unfold acceptedEmotions
  rw [List.filter_cons]
  simp [hc]

theorem runSamples_cons (s : AppState) (x : EmotionSample) (xs : List EmotionSample) :
    runSamples s (x :: xs)
      = runSamples (handleEmotionDetected s x.emotion x.confidence x.capturedAt) xs := rfl

theorem runSamples_no_trigger_aux :
    ∀ (l : List EmotionSample) (s : AppState),
      List.Chain' (fun a b => a ≠ b) (acceptedEmotions l) →
      (∀ e, (acceptedEmotions l).head? = some e →
        s.stableEmotion = some e → s.stableCount = 0) →
      (runSamples s l).pendingEmotionTimer = s.pendingEmotionTimer
      ∧ (runSamples s l).dispatchedFetches = s.dispatchedFetches
      ∧ (runSamples s l).emotionFireTimes = s.emotionFireTimes := by
  intro l
  induction l with
  | nil => exact fun s _ _ => ⟨rfl, rfl, rfl⟩
  | cons x xs ih =>
    intro s hchain hhead
    by_cases hc : x.confidence < 9/10
    · rw [runSamples_cons, handleEmotionDetected_low_confidence hc]
      exact ih s (by rwa [acceptedEmotions_cons_low hc] at hchain)
        (fun e he hse => hhead e (by rwa [acceptedEmotions_cons_low hc]) hse)
    · have hacc : acceptedEmotions (x :: xs) = x.emotion :: acceptedEmotions xs :=
        acceptedEmotions_cons_high hc
      rw [hacc] at hchain
      have hchainTail : List.Chain' (fun a b => a ≠ b) (acceptedEmotions xs) :=
        (List.chain'_cons'.mp hchain).2
      have hrel := (List.chain'_cons'.mp hchain).1
      rw [runSamples_cons]
      by_cases hsame : s.stableEmotion = some x.emotion
      · have h0 : s.stableCount = 0 := hhead x.emotion (by rw [hacc]; rfl) hsame
        rw [handleEmotionDetected_second_not_yet hc hsame h0]
        refine ih { s with stableCount := 1 } hchainTail ?_
        intro e he hse
        exfalso
        exact hrel e he (Option.some_inj.mp ((hsame.symm.trans hse)))
      · rw [handleEmotionDetected_new_emotion hc hsame]
        refine ih { s with stableEmotion := some x.emotion, stableCount := 1 }
          hchainTail ?_
        intro e he hse
        exfalso
        exact hrel e he (Option.some_inj.mp hse)

/-- Claim C2: low-confidence samples (below 0.90) are skipped entirely — the
handler returns the state unchanged, so they neither break nor extend a run —
and for every sample sequence whose accepted (confidence at least 0.90)
samples never carry the same emotion twice in a row, no fetch is ever
triggered: no debounce timer is scheduled, nothing is dispatched and no
emotion-triggered fetch fires. -/
theorem claim2_no_fetch_without_two_consecutive :
    (∀ (s : AppState) (e : Emotion) (c : ℚ) (t : Nat),
        c < 9/10 → handleEmotionDetected s e c t = s)
    ∧ (∀ l : List EmotionSample,
        List.Chain' (fun a b => a ≠ b) (acceptedEmotions l) →
        (runSamples initState l).pendingEmotionTimer = none
        ∧ (runSamples initState l).dispatchedFetches = []
        ∧ (runSamples initState l).emotionFireTimes = []) := by
  refine ⟨fun s e c t hc => handleEmotionDetected_low_confidence hc,
    fun l hchain => ?_⟩
  have h := runSamples_no_trigger_aux l initState hchain ?_
  · exact ⟨h.1.trans rfl, h.2.1.trans rfl, h.2.2.trans rfl⟩
  · intro e he hse
    exfalso
    simp [initState] at hse

/-- Witness for C2 at a concrete sample sequence: accepted emotions
alternate (happy, sad, neutral) with one skipped low-confidence sample, so
no fetch is triggered. -/
theorem claim2_witness :
    (runSamples initState
        [⟨.happy, 95/100, 1000⟩, ⟨.sad, 95/100, 2000⟩,
         ⟨.happy, 1/2, 2500⟩, ⟨.neutral, 95/100, 3000⟩]).pendingEmotionTimer = none
    ∧ (runSamples initState
        [⟨.happy, 95/100, 1000⟩, ⟨.sad, 95/100, 2000⟩,
         ⟨.happy, 1/2, 2500⟩, ⟨.neutral, 95/100, 3000⟩]).dispatchedFetches = []
    ∧ (runSamples initState
        [⟨.happy, 95/100, 1000⟩, ⟨.sad, 95/100, 2000⟩,
         ⟨.happy, 1/2, 2500⟩, ⟨.neutral, 95/100, 3000⟩]).emotionFireTimes = [] := by
  apply claim2_no_fetch_without_two_consecutive.2
  have hi : ¬((95:ℚ)/100 < 9/10) := by norm_num
  have lo : ((1:ℚ)/2 < 9/10) := by norm_num
  rw [acceptedEmotions_cons_high hi, acceptedEmotions_cons_high hi,
    acceptedEmotions_cons_low lo, acceptedEmotions_cons_high hi]
  simp [acceptedEmotions, List.chain'_cons, List.chain'_singleton]

/-! ## Cooldown invariant (C3) -/

/-- Inductive invariant for the 3-second cooldown: the ghost log of
emotion-triggered fetch dispatch times is spaced by at least 3000 ms, a
pending debounce timer was scheduled at least 3000 ms after the last
dispatch, and the cooldown stamp is the last logged dispatch time. -/
def CooldownInv (s : AppState) : Prop :=
  List.Chain' (fun a b => a + 3000 ≤ b) s.emotionFireTimes
  ∧ (∀ (e : Emotion) (ts : Nat),
      s.pendingEmotionTimer = some (e, ts) → s.lastFetchTime + 3000 ≤ ts)
  ∧ (s.emotionFireTimes = [] ∨ s.emotionFireTimes.getLast? = some s.lastFetchTime)

theorem cooldownInv_handleEmotionDetected {s : AppState} (h : CooldownInv s)
    (e : Emotion) (c : ℚ) (t : Nat) :
    CooldownInv (handleEmotionDetected s e c t) := by
  obtain ⟨h1, h2, h3⟩ := h
  by_cases hc : c < 9/10
  · rw [handleEmotionDetected_low_confidence hc]; exact ⟨h1, h2, h3⟩
  · by_cases hsame : s.stableEmotion = some e
    · rcases Nat.eq_zero_or_pos s.stableCount with h0 | hpos
      · rw [handleEmotionDetected_second_not_yet hc hsame h0]
        exact ⟨h1, h2, h3⟩
      · by_cases hcool : t < s.lastFetchTime + 3000
        · rw [handleEmotionDetected_stable_cooldown hc hsame hpos hcool]
          exact ⟨h1, h2, h3⟩
        · rw [handleEmotionDetected_stable_schedule hc hsame hpos (by omega)]
          refine ⟨h1, ?_, h3⟩
          intro e' ts' hp
          have hpair : (e, t) = (e', ts') := Option.some_inj.mp hp
          have ht : ts' = t := (congrArg Prod.snd hpair).symm
          show s.lastFetchTime + 3000 ≤ ts'
          omega
    · rw [handleEmotionDetected_new_emotion hc hsame]
      exact ⟨h1, h2, h3⟩

theorem cooldownInv_fireEmotionTimer {s : AppState} (h : CooldownInv s) (k : Nat) :
    CooldownInv (fireEmotionTimer s k) := by
  obtain ⟨h1, h2, h3⟩ := h
  cases hp : s.pendingEmotionTimer with
  | none => simp only [fireEmotionTimer, hp]; exact ⟨h1, h2, h3⟩
  | some pe =>
    obtain ⟨e, ts⟩ := pe
    have hts := h2 e ts hp
    simp only [fireEmotionTimer, hp, fetchStart]
    refine ⟨?_, ?_, ?_⟩
    · show List.Chain' (fun a b => a + 3000 ≤ b) (s.emotionFireTimes ++ [ts + 300])
      rw [List.chain'_append]
      refine ⟨h1, List.chain'_singleton _, ?_⟩
      intro x hx y hy
      have hy' : y = ts + 300 := by simpa using hy.symm
      rcases h3 with hnil | hlast
      · rw [hnil] at hx; simp at hx
      · rw [hlast] at hx
        have hx' : x = s.lastFetchTime := by simpa using hx.symm
        omega
    · intro e' ts' hp'
      exact Option.noConfusion hp'
    · right
      show (s.emotionFireTimes ++ [ts + 300]).getLast? = some (ts + 300)
      rw [List.getLast?_concat]

theorem cooldownInv_runEvents :
    ∀ (evs : List SessionEvent) (s : AppState),
      CooldownInv s → CooldownInv (runEvents s evs) := by
  intro evs
  induction evs with
  | nil => exact fun s h => h
  | cons ev evs ih =>
    intro s h
    have hstep : runEvents s (ev :: evs) = runEvents (stepEvent s ev) evs := rfl
    rw [hstep]
    apply ih
    cases ev with
    | sample e c t => exact cooldownInv_handleEmotionDetected h e c t
    | timerFire k => exact cooldownInv_fireEmotionTimer h k

theorem cooldownInv_initState : CooldownInv initState :=
  ⟨List.chain'_nil, fun _ _ hp => Option.noConfusion hp, Or.inl rfl⟩

/-- Claim C3: within one scan session, emotion-triggered fetches are spaced
by at least the 3-second cooldown — in any interleaving of samples and timer
expiries the logged dispatch times of consecutive emotion-triggered fetches
differ by at least 3000 ms — and a stable detection arriving less than
3 seconds after the last triggered fetch is recorded for display
(`currentEmotion` is updated) but initiates no network activity: no timer is
scheduled or cancelled, nothing is dispatched, and no load starts. -/
theorem claim3_cooldown_between_fetches :
    (∀ tr : List SessionEvent,
        List.Chain' (fun a b => a + 3000 ≤ b)
          ((runEvents initState tr).emotionFireTimes))
    ∧ (∀ (s : AppState) (e : Emotion) (c : ℚ) (t : Nat),
        ¬ c < 9/10 → s.stableEmotion = some e → 1 ≤ s.stableCount →
        t < s.lastFetchTime + 3000 →
        (handleEmotionDetected s e c t).currentEmotion = some e
        ∧ (handleEmotionDetected s e c t).pendingEmotionTimer = s.pendingEmotionTimer
        ∧ (handleEmotionDetected s e c t).dispatchedFetches = s.dispatchedFetches
        ∧ (handleEmotionDetected s e c t).emotionFireTimes = s.emotionFireTimes
        ∧ (handleEmotionDetected s e c t).isLoadingVideos = s.isLoadingVideos) := by
  constructor
  · intro tr
    exact (cooldownInv_runEvents tr initState cooldownInv_initState).1
  · intro s e c t hc hsame hcount hcool
    rw [handleEmotionDetected_stable_cooldown hc hsame hcount hcool]
    exact ⟨rfl, rfl, rfl, rfl, rfl⟩

/-- Witness for C3: a concrete event trace, and a concrete state inside the
cooldown window where a stable detection is displayed without dispatching. -/
theorem claim3_witness :
    List.Chain' (fun a b => a + 3000 ≤ b)
      ((runEvents initState
          [.sample .happy (95/100) 5000, .sample .happy (95/100) 5100,
           .timerFire 0]).emotionFireTimes)
    ∧ (handleEmotionDetected
          ({ initState with stableEmotion := some .happy, stableCount := 1,
                            lastFetchTime := 10000 })
          .happy (95/100) 11000).currentEmotion = some .happy :=
  ⟨claim3_cooldown_between_fetches.1 _,
   (claim3_cooldown_between_fetches.2
      { initState with stableEmotion := some .happy, stableCount := 1,
                       lastFetchTime := 10000 }
      .happy (95/100) 11000 (by norm_num) rfl (le_refl 1) (by decide)).1⟩

/-! ## Debounce rescheduling (C4) -/

/-- Counterexample for C4 as stated: after the samples
[(happy, 0.95), (happy, 0.92)] have scheduled a happy-triggered fetch, a
single further (sad, 0.95) sample arriving before the settle delay elapses
does NOT cancel the happy-triggered fetch and does NOT schedule a
sad-triggered one — the pending timer still holds the happy trigger
scheduled at time 100100, because a single sample only resets the run
length and returns before reaching the scheduling code. -/
theorem claim4_counterexample :
    (runSamples initState
        [⟨.happy, 95/100, 100000⟩, ⟨.happy, 92/100, 100100⟩,
         ⟨.sad, 95/100, 100200⟩]).pendingEmotionTimer = some (.happy, 100100)
    ∧ ¬ ((runSamples initState
        [⟨.happy, 95/100, 100000⟩, ⟨.happy, 92/100, 100100⟩,
         ⟨.sad, 95/100, 100200⟩]).pendingEmotionTimer.map Prod.fst
          = some Emotion.sad) := by
  have hi95 : ¬((95:ℚ)/100 < 9/10) := by norm_num
  have hi92 : ¬((92:ℚ)/100 < 9/10) := by norm_num
  have h : (runSamples initState
      [⟨.happy, 95/100, 100000⟩, ⟨.happy, 92/100, 100100⟩,
       ⟨.sad, 95/100, 100200⟩]).pendingEmotionTimer = some (.happy, 100100) := by
    rw [runSamples_cons, handleEmotionDetected_new_emotion hi95 (by simp [initState])]
    rw [runSamples_cons,
      handleEmotionDetected_stable_schedule hi92 rfl (le_refl 1) (by decide)]
    rw [runSamples_cons, handleEmotionDetected_new_emotion hi95 (by simp)]
    rfl
  exact ⟨h, by rw [h]; simp⟩

/-- Claim C4 (amended): a single qualifying sample for a different emotion
does not cancel or reschedule the pending trigger — it only resets the run
length to 1 — and once the different emotion stabilizes (two consecutive
qualifying samples) before the timer fires and outside the cooldown, the
previously scheduled trigger is replaced by one for the new emotion. -/
theorem claim4_amended_debounce_reschedule :
    (∀ (s : AppState) (e : Emotion) (c : ℚ) (t : Nat),
        ¬ c < 9/10 → ¬ s.stableEmotion = some e →
        (handleEmotionDetected s e c t).pendingEmotionTimer = s.pendingEmotionTimer
        ∧ (handleEmotionDetected s e c t).stableEmotion = some e
        ∧ (handleEmotionDetected s e c t).stableCount = 1)
    ∧ (∀ (s : AppState) (e : Emotion) (c₁ c₂ : ℚ) (t₁ t₂ : Nat),
        ¬ c₁ < 9/10 → ¬ c₂ < 9/10 → ¬ s.stableEmotion = some e →
        s.lastFetchTime + 3000 ≤ t₂ →
        (handleEmotionDetected (handleEmotionDetected s e c₁ t₁) e c₂
            t₂).pendingEmotionTimer = some (e, t₂)) := by
  constructor
  · intro s e c t hc hdiff
    rw [handleEmotionDetected_new_emotion hc hdiff]
    exact ⟨rfl, rfl, rfl⟩
  · intro s e c₁ c₂ t₁ t₂ hc1 hc2 hdiff hcool
    rw [handleEmotionDetected_new_emotion hc1 hdiff]
    have hsame :
        ({ s with stableEmotion := some e, stableCount := 1 } : AppState).stableEmotion
          = some e := rfl
    have hcnt :
        1 ≤ ({ s with stableEmotion := some e, stableCount := 1 } : AppState).stableCount :=
      le_refl 1
    have hcool2 :
        ({ s with stableEmotion := some e, stableCount := 1 } : AppState).lastFetchTime
            + 3000 ≤ t₂ :=
      hcool
    rw [handleEmotionDetected_stable_schedule hc2 hsame hcnt hcool2]

/-- Witness for C4 (amended): from a state holding a scheduled happy trigger,
two consecutive qualifying sad samples replace it with a sad trigger. -/
theorem claim4_witness :
    (handleEmotionDetected
        (handleEmotionDetected
          ({ initState with stableEmotion := some .happy, stableCount := 2,
                            pendingEmotionTimer := some (.happy, 100100) })
          .sad (95/100) 100150)
        .sad (95/100) 100200).pendingEmotionTimer = some (.sad, 100200) :=
  claim4_amended_debounce_reschedule.2
    { initState with stableEmotion := some .happy, stableCount := 2,
                     pendingEmotionTimer := some (.happy, 100100) }
    .sad (95/100) (95/100) 100150 100200
    (by norm_num) (by norm_num) (by simp) (by decide)

/-! ## Branch lemmas for the session controller -/

theorem handleSearch_empty {s : AppState} (hq : jsTrim s.searchQuery = "") :
    handleSearch s = s := by
  simp only [handleSearch, if_pos hq]

theorem handleSearch_active {s : AppState} (hq : ¬ jsTrim s.searchQuery = "")
    (hcam : s.cameraActive = true) :
    handleSearch s
      = { s with searchKeyword := some (jsTrim s.searchQuery), currentEmotion := none,
                 isLoadingVideos := true, videoError := none,
                 dispatchedFetches := s.dispatchedFetches ++ [jsTrim s.searchQuery],
                 cameraActive := false, isScanning := false,
                 countdownActive := false } := by
  simp only [handleSearch, if_neg hq, fetchStart]
  rw [if_pos hcam]

theorem handleSearch_inactive {s : AppState} (hq : ¬ jsTrim s.searchQuery = "")
    (hcam : ¬ s.cameraActive = true) :
    handleSearch s
      = { s with searchKeyword := some (jsTrim s.searchQuery), currentEmotion := none,
                 isLoadingVideos := true, videoError := none,
                 dispatchedFetches := s.dispatchedFetches ++ [jsTrim s.searchQuery] } := by
  simp only [handleSearch, if_neg hq, fetchStart]
  rw [if_neg hcam]

theorem tick_expire {s : AppState} (hact : s.countdownActive = true)
    (hle : s.scanCountdown ≤ 1) :
    tick s = { s with countdownActive := false, cameraActive := false,
                      isScanning := false, scanCountdown := 0 } := by
  simp only [tick]
  rw [if_pos hact, if_pos hle]

theorem tick_decrement {s : AppState} (hact : s.countdownActive = true)
    (hgt : ¬ s.scanCountdown ≤ 1) :
    tick s = { s with scanCountdown := s.scanCountdown - 1 } := by
  simp only [tick]
  rw [if_pos hact, if_neg hgt]

theorem tick_inactive {s : AppState} (hact : ¬ s.countdownActive = true) :
    tick s = s := by
  simp only [tick]
  rw [if_neg hact]

/-! ## Reachable-state invariants of the scan session -/

theorem handleSearch_scanning_cases (s : AppState) :
    (handleSearch s).isScanning = false
    ∨ ((handleSearch s).isScanning = s.isScanning
        ∧ (handleSearch s).scanCountdown = s.scanCountdown
        ∧ (handleSearch s).cameraActive = s.cameraActive) := by
  by_cases hq : jsTrim s.searchQuery = ""
  · rw [handleSearch_empty hq]; exact Or.inr ⟨rfl, rfl, rfl⟩
  · by_cases hcam : s.cameraActive = true
    · rw [handleSearch_active hq hcam]; exact Or.inl rfl
    · rw [handleSearch_inactive hq hcam]; exact Or.inr ⟨rfl, rfl, rfl⟩

theorem tick_scanning_cases (s : AppState) :
    (tick s).isScanning = false
    ∨ ((tick s).isScanning = s.isScanning
        ∧ (tick s).cameraActive = s.cameraActive
        ∧ ((tick s).scanCountdown = s.scanCountdown ∨ 0 < (tick s).scanCountdown)) := by
  by_cases hact : s.countdownActive = true
  · by_cases hle : s.scanCountdown ≤ 1
    · rw [tick_expire hact hle]; exact Or.inl rfl
    · rw [tick_decrement hact hle]
      refine Or.inr ⟨rfl, rfl, Or.inr ?_⟩
      show 0 < s.scanCountdown - 1
      omega
  · rw [tick_inactive hact]; exact Or.inr ⟨rfl, rfl, Or.inl rfl⟩

theorem reachable_scanning_countdown_pos :
    ∀ s : AppState, Reachable s → s.isScanning = true → 0 < s.scanCountdown := by
  intro s hr
  induction hr with
  | init => intro h; exact Bool.noConfusion h
  | acceptConsent _ ih =>
      intro _
      show (0:Nat) < 5
      omega
  | declineConsent _ ih => exact fun h => ih h
  | emotionDetected e c t _ ih =>
      rename_i sp _
      intro h
      have hf := handleEmotionDetected_frame sp e c t
      rw [hf.2.1]
      exact ih (hf.1 ▸ h)
  | timerFire k _ ih =>
      rename_i sp _
      intro h
      have hf := fireEmotionTimer_frame sp k
      rw [hf.2.1]
      exact ih (hf.1 ▸ h)
  | fetchDone o _ ih =>
      rename_i sp _
      intro h
      have hf := fetchComplete_frame sp o
      rw [hf.2.1]
      exact ih (hf.1 ▸ h)
  | cameraStop _ ih => intro h; exact Bool.noConfusion h
  | cameraError m _ ih => intro h; exact Bool.noConfusion h
  | scanAgain _ ih =>
      intro _
      show (0:Nat) < 5
      omega
  | search _ ih =>
      intro h
      rcases handleSearch_scanning_cases _ with hfalse | ⟨hsc, hcd, _⟩
      · rw [hfalse] at h; exact Bool.noConfusion h
      · rw [hcd]; exact ih (hsc ▸ h)
  | typeQuery q _ ih => exact fun h => ih h
  | countdownTick _ ih =>
      intro h
      rcases tick_scanning_cases _ with hfalse | ⟨hsc, _, hcd | hpos⟩
      · rw [hfalse] at h; exact Bool.noConfusion h
      · rw [hcd]; exact ih (hsc ▸ h)
      · exact hpos
  | unmount _ ih => exact fun h => ih h

theorem reachable_scanning_camera :
    ∀ s : AppState, Reachable s → s.isScanning = true → s.cameraActive = true := by
  intro s hr
  induction hr with
  | init => intro h; exact Bool.noConfusion h
  | acceptConsent _ ih => exact fun _ => rfl
  | declineConsent _ ih => exact fun h => ih h
  | emotionDetected e c t _ ih =>
      rename_i sp _
      intro h
      have hf := handleEmotionDetected_frame sp e c t
      rw [hf.2.2.1]
      exact ih (hf.1 ▸ h)
  | timerFire k _ ih =>
      rename_i sp _
      intro h
      have hf := fireEmotionTimer_frame sp k
      rw [hf.2.2.1]
      exact ih (hf.1 ▸ h)
  | fetchDone o _ ih =>
      rename_i sp _
      intro h
      have hf := fetchComplete_frame sp o
      rw [hf.2.2.1]
      exact ih (hf.1 ▸ h)
  | cameraStop _ ih => intro h; exact Bool.noConfusion h
  | cameraError m _ ih => intro h; exact Bool.noConfusion h
  | scanAgain _ ih => exact fun _ => rfl
  | search _ ih =>
      intro h
      rcases handleSearch_scanning_cases _ with hfalse | ⟨hsc, _, hcam⟩
      · rw [hfalse] at h; exact Bool.noConfusion h
      · rw [hcam]; exact ih (hsc ▸ h)
  | typeQuery q _ ih => exact fun h => ih h
  | countdownTick _ ih =>
      intro h
      rcases tick_scanning_cases _ with hfalse | ⟨hsc, hcam, _⟩
      · rw [hfalse] at h; exact Bool.noConfusion h
      · rw [hcam]; exact ih (hsc ▸ h)
  | unmount _ ih => exact fun h => ih h

/-! ## Claims about the scan session (C6, C7, C8) -/

/-- Claim C6: a countdown started at 5 still shows 1 after four one-second
ticks and reaches 0 after exactly five; on the fifth tick the interval clears
itself, the camera (and with it the perception loop) is deactivated and
scanning ends, all regardless of any fetch in flight (the tick never touches
the video accumulator or the loading flag); and in every reachable state the
session is scanning only while the countdown is positive. -/
theorem claim6_countdown_exactly_five_ticks :
    (∀ s : AppState,
        (tick (tick (tick (tick (startCountdown s))))).scanCountdown = 1
        ∧ (tick (tick (tick (tick (tick (startCountdown s)))))).scanCountdown = 0
        ∧ (tick (tick (tick (tick (tick (startCountdown s)))))).cameraActive = false
        ∧ (tick (tick (tick (tick (tick (startCountdown s)))))).isScanning = false
        ∧ (tick (tick (tick (tick (tick (startCountdown s)))))).countdownActive = false
        ∧ (tick (tick (tick (tick (tick (startCountdown s)))))).videos = s.videos
        ∧ (tick (tick (tick (tick (tick (startCountdown s)))))).isLoadingVideos
            = s.isLoadingVideos)
    ∧ (∀ s : AppState, Reachable s → s.isScanning = true → 0 < s.scanCountdown) := by
  constructor
  · intro s
    exact ⟨rfl, rfl, rfl, rfl, rfl, rfl, rfl⟩
  · exact reachable_scanning_countdown_pos

/-- Witness for C6 at a concrete reachable scanning state: right after
consent is accepted the session is scanning and the countdown is positive. -/
theorem claim6_witness : 0 < (handleAcceptConsent initState).scanCountdown :=
  claim6_countdown_exactly_five_ticks.2 (handleAcceptConsent initState)
    (Reachable.acceptConsent Reachable.init) rfl

/-- Claim C7: a manual search with a non-empty query while scanning (in any
reachable state) dispatches a fetch immediately — in the same step, with no
debounce and no consultation of the cooldown stamp or pending timer, both of
which are universally quantified here — for exactly the trimmed entered
query, publishes that query as the search keyword, and leaves the Scanning
state with the countdown ticker cancelled. -/
theorem claim7_manual_search_bypasses :
    ∀ s : AppState, Reachable s → s.isScanning = true → jsTrim s.searchQuery ≠ "" →
      (handleSearch s).dispatchedFetches = s.dispatchedFetches ++ [jsTrim s.searchQuery]
      ∧ (handleSearch s).searchKeyword = some (jsTrim s.searchQuery)
      ∧ (handleSearch s).isLoadingVideos = true
      ∧ (handleSearch s).isScanning = false
      ∧ (handleSearch s).countdownActive = false := by
  intro s hr hscan hq
  have hcam : s.cameraActive = true := reachable_scanning_camera s hr hscan
  rw [handleSearch_active hq hcam]
  exact ⟨rfl, rfl, rfl, rfl, rfl⟩

/-- Witness for C7: manual search for "test query" in a concrete scanning
state fires immediately for exactly that query and ends the session. -/
theorem claim7_witness :
    (handleSearch (setSearchQuery (handleAcceptConsent initState)
        "test query")).isScanning = false
    ∧ (handleSearch (setSearchQuery (handleAcceptConsent initState)
        "test query")).countdownActive = false
    ∧ (handleSearch (setSearchQuery (handleAcceptConsent initState)
        "test query")).dispatchedFetches = ["test query"]
    ∧ (handleSearch (setSearchQuery (handleAcceptConsent initState)
        "test query")).searchKeyword = some "test query" := by
  have h := claim7_manual_search_bypasses _
    (Reachable.typeQuery "test query" (Reachable.acceptConsent Reachable.init))
    rfl (by decide)
  refine ⟨h.2.2.2.1, h.2.2.2.2, ?_, ?_⟩
  · rw [h.1]; decide
  · rw [h.2.1]; decide

/-- Counterexample for C8 as stated: manual search is a transition out of the
Scanning state, yet it does not cancel a pending debounce trigger.  From a
reachable scanning state holding a happy trigger scheduled at 5100 ms, the
search leaves Scanning while the trigger is still pending. -/
theorem claim8_counterexample :
    (runSamples (setSearchQuery (handleAcceptConsent initState) "test query")
        [⟨.happy, 95/100, 5000⟩, ⟨.happy, 95/100, 5100⟩]).isScanning = true
    ∧ (handleSearch (runSamples
        (setSearchQuery (handleAcceptConsent initState) "test query")
        [⟨.happy, 95/100, 5000⟩, ⟨.happy, 95/100, 5100⟩])).isScanning = false
    ∧ (handleSearch (runSamples
        (setSearchQuery (handleAcceptConsent initState) "test query")
        [⟨.happy, 95/100, 5000⟩, ⟨.happy, 95/100, 5100⟩])).pendingEmotionTimer
        = some (.happy, 5100) := by
  have hi : ¬((95:ℚ)/100 < 9/10) := by norm_num
  have hrun : runSamples (setSearchQuery (handleAcceptConsent initState) "test query")
      [⟨.happy, 95/100, 5000⟩, ⟨.happy, 95/100, 5100⟩]
      = { initState with
          showConsent := false, cameraActive := true, isScanning := true,
          scanCountdown := 5, countdownActive := true, searchQuery := "test query",
          stableEmotion := some .happy, stableCount := 2,
          currentEmotion := some .happy,
          pendingEmotionTimer := some (.happy, 5100) } := by
    rw [runSamples_cons, handleEmotionDetected_new_emotion hi (by decide)]
    rw [runSamples_cons]
    have hsame :
        ({ setSearchQuery (handleAcceptConsent initState) "test query" with
            stableEmotion := some Emotion.happy,
            stableCount := 1 } : AppState).stableEmotion = some .happy := rfl
    rw [handleEmotionDetected_stable_schedule hi hsame (le_refl 1) (by decide)]
    rfl
  rw [hrun]
  have hq : ¬ jsTrim ({ initState with
      showConsent := false, cameraActive := true, isScanning := true,
      scanCountdown := 5, countdownActive := true, searchQuery := "test query",
      stableEmotion := some .happy, stableCount := 2,
      currentEmotion := some .happy,
      pendingEmotionTimer := some (.happy, 5100) } : AppState).searchQuery
      = "" := by decide
  rw [handleSearch_active hq rfl]
  exact ⟨rfl, rfl, rfl⟩

/-- Claim C8 (amended): on explicit camera stop and on controller teardown
both timers — the countdown ticker and any pending debounce trigger — are
cancelled; but on the two other transitions out of Scanning, only the
countdown ticker is cancelled: a manual search and the countdown reaching 0
leave a pending debounce trigger in place, where it can still fire
afterwards. -/
theorem claim8_amended_timer_cancellation :
    (∀ s : AppState,
        (handleCameraStop s).pendingEmotionTimer = none
        ∧ (handleCameraStop s).countdownActive = false)
    ∧ (∀ s : AppState,
        (teardownCleanup s).pendingEmotionTimer = none
        ∧ (teardownCleanup s).countdownActive = false)
    ∧ (∀ s : AppState, jsTrim s.searchQuery ≠ "" → s.cameraActive = true →
        (handleSearch s).isScanning = false
        ∧ (handleSearch s).countdownActive = false
        ∧ (handleSearch s).pendingEmotionTimer = s.pendingEmotionTimer)
    ∧ (∀ s : AppState, s.countdownActive = true → s.scanCountdown ≤ 1 →
        (tick s).isScanning = false
        ∧ (tick s).countdownActive = false
        ∧ (tick s).pendingEmotionTimer = s.pendingEmotionTimer) := by
  refine ⟨fun s => ⟨rfl, rfl⟩, fun s => ⟨rfl, rfl⟩, ?_, ?_⟩
  · intro s hq hcam
    rw [handleSearch_active hq hcam]
    exact ⟨rfl, rfl, rfl⟩
  · intro s hact hle
    rw [tick_expire hact hle]
    exact ⟨rfl, rfl, rfl⟩

/-- Witness for C8 (amended): concrete manual-search and countdown-expiry
states where only the countdown ticker is cancelled and the pending trigger
survives. -/
theorem claim8_witness :
    ((handleSearch ({ initState with
        cameraActive := true, isScanning := true, countdownActive := true,
        searchQuery := "hello",
        pendingEmotionTimer := some (.sad, 42) })).pendingEmotionTimer
      = some (.sad, 42))
    ∧ ((tick ({ initState with
        countdownActive := true, scanCountdown := 1,
        pendingEmotionTimer := some (.sad, 42) })).pendingEmotionTimer
      = some (.sad, 42)) :=
  ⟨(claim8_amended_timer_cancellation.2.2.1
      { initState with
        cameraActive := true, isScanning := true, countdownActive := true,
        searchQuery := "hello",
        pendingEmotionTimer := some (.sad, 42) }
      (by decide) rfl).2.2,
   (claim8_amended_timer_cancellation.2.2.2
      { initState with
        countdownActive := true, scanCountdown := 1,
        pendingEmotionTimer := some (.sad, 42) }
      rfl (le_refl 1)).2.2⟩

/-! ## Claim about the expression mapping layer (C10) -/

theorem max3_eq (a b c v : ℚ) (ha : a ≤ v) (hb : b ≤ v) (hc : c ≤ v)
    (hv : v = a ∨ v = b ∨ v = c) : max (max a b) c = v :=
  le_antisymm (max_le (max_le ha hb) hc)
    (by rcases hv with rfl | rfl | rfl
        · exact le_max_of_le_left (le_max_left _ _)
        · exact le_max_of_le_left (le_max_right _ _)
        · exact le_max_right _ _)

/-- Claim C10: `mapExpressionToEmotion` never returns `surprised`; the
surprised score is folded into the neutral bucket and the result is the
argmax over the three combined scores (when the maximum clears the 0.3
threshold the returned emotion carries exactly the maximal combined score),
`neutral` is returned whenever the maximum combined score is below 0.3, and
the `surprised` and `neutral` entries of the keyword table hold element-wise
equal keyword lists. -/
theorem claim10_surprised_folded_into_neutral :
    ∀ (ex : ExpressionScores),
      mapExpressionToEmotion ex ≠ .surprised
      ∧ (max (max ex.happy ex.sad) (ex.neutral + ex.surprised) < 3/10 →
          mapExpressionToEmotion ex = .neutral)
      ∧ (3/10 ≤ max (max ex.happy ex.sad) (ex.neutral + ex.surprised) →
          relevantScore ex (mapExpressionToEmotion ex)
            = max (max ex.happy ex.sad) (ex.neutral + ex.surprised))
      ∧ (emotionMapping .surprised).keywords = (emotionMapping .neutral).keywords := by
  intro ex
  refine ⟨?_, ?_, ?_, rfl⟩
  · unfold mapExpressionToEmotion
    simp only [List.foldl]
    split_ifs <;> simp
  · intro h
    have h1 : ex.happy ≤ max (max ex.happy ex.sad) (ex.neutral + ex.surprised) :=
      le_max_of_le_left (le_max_left _ _)
    have h2 : ex.sad ≤ max (max ex.happy ex.sad) (ex.neutral + ex.surprised) :=
      le_max_of_le_left (le_max_right _ _)
    have h3 : ex.neutral + ex.surprised
        ≤ max (max ex.happy ex.sad) (ex.neutral + ex.surprised) :=
      le_max_right _ _
    unfold mapExpressionToEmotion
    simp only [List.foldl]
    split_ifs <;> first | rfl | linarith
  · intro h
    have hzero : ((Emotion.neutral, (0:ℚ))).2 = 0 := rfl
    unfold mapExpressionToEmotion
    simp only [List.foldl]
    split_ifs <;>
      simp only [hzero] at * <;>
      simp only [relevantScore] <;>
      first
        | (rw [eq_comm]
           apply max3_eq _ _ _ _ (by linarith) (by linarith) (by linarith) (by tauto))
        | exact absurd h
            (not_le.mpr (max_lt (max_lt (by linarith) (by linarith)) (by linarith)))

/-- Witness for C10 at concrete score records: scores (0.5, 0.1, 0.1, 0)
map to an emotion carrying the maximal combined score 0.5, and scores
(0.1, 0.1, 0.1, 0) fall below the 0.3 threshold and map to neutral. -/
theorem claim10_witness :
    relevantScore ⟨1/2, 1/10, 1/10, 0, 0, 0, 0⟩
        (mapExpressionToEmotion ⟨1/2, 1/10, 1/10, 0, 0, 0, 0⟩)
      = max (max (1/2 : ℚ) (1/10)) (1/10 + 0)
    ∧ mapExpressionToEmotion ⟨1/10, 1/10, 1/10, 0, 0, 0, 0⟩ = .neutral :=
  ⟨(claim10_surprised_folded_into_neutral ⟨1/2, 1/10, 1/10, 0, 0, 0, 0⟩).2.2.1
      (by rw [max_eq_left (by norm_num), max_eq_left (by norm_num)]; norm_num),
   (claim10_surprised_folded_into_neutral ⟨1/10, 1/10, 1/10, 0, 0, 0, 0⟩).2.1
      (by rw [max_eq_left (by norm_num), max_eq_right (by norm_num)]; norm_num)⟩

end MoodFlix
